import Mathlib

/-!
Verification development for a multi-provider LLM comparison tool.

The embedding models the five provider adapters (Claude, OpenAI, Gemini,
Perplexity, SearchGPT), the retry/backoff loops, the cost calculators and
the multi-call aggregation / comparison orchestration of `main.py`.

Vendor network behaviour is abstracted as an oracle `Nat → Outcome` giving
the vendor outcome of each attempt (indexed by the zero-based attempt
counter), and the jitter of `random.random()` is abstracted as an oracle
`Nat → ℚ`.  Each adapter run returns the produced result dictionary (as an
`Option CallResult`, `none` modelling a Python function that returns `None`),
the list of sleep durations performed between attempts, and the number of
vendor attempts that were made.
-/

/-! ## String utilities (Python `in`, `str.lower`, counting occurrences) -/

/-- Whether the first character list is an initial segment of the second. -/
def listStartsWith : List Char → List Char → Bool
  | [], _ => true
  | _ :: _, [] => false
  | p :: ps, c :: cs => p == c && listStartsWith ps cs

/-- Whether `p` occurs as a contiguous sublist of the second argument. -/
def hasSubList (p : List Char) : List Char → Bool
  | [] => p.isEmpty
  | c :: rest => listStartsWith p (c :: rest) || hasSubList p rest

/-- Python's substring containment `pat in s`. -/
def strHasSub (s pat : String) : Bool :=
  hasSubList pat.data s.data

/-- Number of start positions (overlap allowed) at which `p` occurs. -/
def countSubList (p : List Char) : List Char → Nat
  | [] => 0
  | c :: rest => (if listStartsWith p (c :: rest) then 1 else 0) + countSubList p rest

/-- Number of positions at which `pat` occurs in `s`. -/
def strCountSub (s pat : String) : Nat :=
  countSubList pat.data s.data

/-- Python's `str.lower()` (character-wise lowering, as for the ASCII error
strings matched by the adapters). -/
def strLower (s : String) : String :=
  String.mk (s.data.map Char.toLower)

/-! ## Common data model -/

/-- The `usage` sub-dictionary every adapter produces. -/
structure TokenUsage where
  input_tokens : Nat
  output_tokens : Nat
  total_tokens : Nat
deriving Repr, DecidableEq

/-- The all-zero usage used by every failure path. -/
def zeroUsage : TokenUsage := ⟨0, 0, 0⟩

/-- One web search result as produced by `search_web` (title, link, snippet). -/
structure SearchResult where
  title : String
  link : String
  snippet : String
deriving Repr, DecidableEq

/-- The result dictionary of an adapter call.  Python dictionaries are
heterogeneous: a key that a given adapter does not emit on a given path is
modelled as `none` (`content` is `some` when the key holds a string and
`none` when it holds Python `None` or is absent). -/
structure CallResult where
  content : Option String
  usage : TokenUsage
  model : String
  provider : Option String
  cost : Option ℚ
  error : Option String
  search_results : Option (List SearchResult)
  search_enhanced : Option Bool
deriving Repr, DecidableEq

/-- Observable behaviour of one adapter invocation: the returned dictionary
(`none` when the Python function returns `None`), the sleeps performed
between attempts, and the number of vendor attempts made. -/
structure AdapterRun where
  result : Option CallResult
  sleeps : List ℚ
  attempts : Nat
deriving Repr, DecidableEq

/-- Vendor outcome of a single SDK attempt for the Claude/OpenAI/Gemini
adapters: a text completion with optional usage counts (input, output), or a
raised exception whose stringified form is recorded. -/
inductive VendorOutcome where
  | success (text : String) (usage : Option (Nat × Nat))
  | failure (err : String)
deriving Repr, DecidableEq

/-- Whether a vendor outcome is a raised exception. -/
def VendorOutcome.isFailure : VendorOutcome → Bool
  | .failure _ => true
  | .success _ _ => false

/-- The exponential-backoff-with-jitter sleep sequence `2 ^ attempt + jitter attempt`
for `count` consecutive attempts starting at attempt index `start`. -/
def backoffFrom (jitter : Nat → ℚ) : Nat → Nat → List ℚ
  | _, 0 => []
  | start, count + 1 =>
      ((2 : ℚ) ^ start + jitter start) :: backoffFrom jitter (start + 1) count

/-- The jitter-free exponential backoff sleep sequence `2 ^ attempt` for
`count` consecutive attempts starting at attempt index `start` (used by the
HTTP-based adapters' server-error and timeout paths). -/
def powersFrom : Nat → Nat → List ℚ
  | _, 0 => []
  | start, count + 1 => ((2 : ℚ) ^ start) :: powersFrom (start + 1) count

/-! ## Claude adapter (`src/ai_clients/claude_client.py`) -/

/-- Claude's retryability test: `"529" in error_str or "overloaded" in error_str.lower()`. -/
def isClaudeRetryable (e : String) : Bool :=
  strHasSub e "529" || strHasSub (strLower e) "overloaded"

/-- The success dictionary built by `call_claude_with_prompts`
(usage defaults to zero when the message carries no usage object). -/
def claudeSuccessResult (model text : String) (u : Option (Nat × Nat)) : CallResult :=
  let input_tokens := (u.map Prod.fst).getD 0
  let output_tokens := (u.map Prod.snd).getD 0
  { content := some text
    usage := ⟨input_tokens, output_tokens, input_tokens + output_tokens⟩
    model := model
    provider := some "claude"
    cost := none
    error := none
    search_results := none
    search_enhanced := none }

/-- The error dictionary built by `call_claude_with_prompts` for a final
error string `msg` (the content embeds the error message; there is no
separate `error` key). -/
def claudeErrorResult (model msg : String) : CallResult :=
  { content := some ("Error calling Claude: " ++ msg)
    usage := zeroUsage
    model := model
    provider := some "claude"
    cost := none
    error := none
    search_results := none
    search_enhanced := none }

/-- The `for attempt in range(max_retries + 1)` loop of
`call_claude_with_prompts`.  `remaining` is the number of loop iterations
still available after the current one (`max_retries - attempt`). -/
def claudeLoop (model : String) (max_retries : Nat) (vendor : Nat → VendorOutcome)
    (jitter : Nat → ℚ) : Nat → Nat → AdapterRun
  | 0, attempt =>
    match vendor attempt with
    | .success text u =>
        { result := some (claudeSuccessResult model text u), sleeps := [], attempts := 1 }
    | .failure e =>
        if isClaudeRetryable e then
          { result := some (claudeErrorResult model
              ("Claude overloaded after " ++ toString (max_retries + 1) ++
                " attempts: " ++ e))
            sleeps := []
            attempts := 1 }
        else
          { result := some (claudeErrorResult model e), sleeps := [], attempts := 1 }
  | r + 1, attempt =>
    match vendor attempt with
    | .success text u =>
        { result := some (claudeSuccessResult model text u), sleeps := [], attempts := 1 }
    | .failure e =>
        if isClaudeRetryable e then
          let rest := claudeLoop model max_retries vendor jitter r (attempt + 1)
          { result := rest.result
            sleeps := ((2 : ℚ) ^ attempt + jitter attempt) :: rest.sleeps
            attempts := rest.attempts + 1 }
        else
          { result := some (claudeErrorResult model e), sleeps := [], attempts := 1 }

/-- `call_claude_with_prompts(system_prompt, human_prompt, model, max_tokens, max_retries)`.
The prompts and `max_tokens` are forwarded to the vendor (abstracted into the
oracle) and do not otherwise affect the adapter's observable behaviour. -/
def call_claude_with_prompts (system_prompt human_prompt model : String)
    (max_tokens max_retries : Nat) (vendor : Nat → VendorOutcome)
    (jitter : Nat → ℚ) : AdapterRun :=
  claudeLoop model max_retries vendor jitter max_retries 0

/-! ## OpenAI adapter (`src/ai_clients/openai_client.py`) -/

/-- The retryable error indicators of the OpenAI adapter, in source order. -/
def openaiRetryableErrors : List String :=
  ["rate_limit", "429", "500", "502", "503", "504", "timeout", "overloaded"]

/-- OpenAI's retryability test:
`any(err in error_str.lower() for err in retryable_errors)`. -/
def isOpenaiRetryable (e : String) : Bool :=
  openaiRetryableErrors.any fun p => strHasSub (strLower e) p

/-- The success dictionary built by `call_openai_with_prompts`
(prompt/completion token counts default to zero when usage is absent). -/
def openaiSuccessResult (model text : String) (u : Option (Nat × Nat)) : CallResult :=
  let input_tokens := (u.map Prod.fst).getD 0
  let output_tokens := (u.map Prod.snd).getD 0
  { content := some text
    usage := ⟨input_tokens, output_tokens, input_tokens + output_tokens⟩
    model := model
    provider := some "openai"
    cost := none
    error := none
    search_results := none
    search_enhanced := none }

/-- The error dictionary built by `call_openai_with_prompts`. -/
def openaiErrorResult (model msg : String) : CallResult :=
  { content := some ("Error calling OpenAI: " ++ msg)
    usage := zeroUsage
    model := model
    provider := some "openai"
    cost := none
    error := none
    search_results := none
    search_enhanced := none }

/-- The `for attempt in range(max_retries + 1)` loop of
`call_openai_with_prompts`.  `remaining = max_retries - attempt`. -/
def openaiLoop (model : String) (max_retries : Nat) (vendor : Nat → VendorOutcome)
    (jitter : Nat → ℚ) : Nat → Nat → AdapterRun
  | 0, attempt =>
    match vendor attempt with
    | .success text u =>
        { result := some (openaiSuccessResult model text u), sleeps := [], attempts := 1 }
    | .failure e =>
        if isOpenaiRetryable e then
          { result := some (openaiErrorResult model
              ("OpenAI error after " ++ toString (max_retries + 1) ++
                " attempts: " ++ e))
            sleeps := []
            attempts := 1 }
        else
          { result := some (openaiErrorResult model e), sleeps := [], attempts := 1 }
  | r + 1, attempt =>
    match vendor attempt with
    | .success text u =>
        { result := some (openaiSuccessResult model text u), sleeps := [], attempts := 1 }
    | .failure e =>
        if isOpenaiRetryable e then
          let rest := openaiLoop model max_retries vendor jitter r (attempt + 1)
          { result := rest.result
            sleeps := ((2 : ℚ) ^ attempt + jitter attempt) :: rest.sleeps
            attempts := rest.attempts + 1 }
        else
          { result := some (openaiErrorResult model e), sleeps := [], attempts := 1 }

/-- `call_openai_with_prompts(system_prompt, human_prompt, model, max_tokens, temperature, max_retries)`. -/
def call_openai_with_prompts (system_prompt human_prompt model : String)
    (max_tokens : Nat) (temperature : ℚ) (max_retries : Nat)
    (vendor : Nat → VendorOutcome) (jitter : Nat → ℚ) : AdapterRun :=
  openaiLoop model max_retries vendor jitter max_retries 0

/-! ## Gemini adapter (`src/ai_clients/gemini_client.py`) -/

/-- The retryable error indicators of the Gemini adapter, in source order. -/
def geminiRetryableErrors : List String :=
  ["rate_limit", "quota", "429", "500", "502", "503", "504", "timeout",
   "overloaded", "resource_exhausted"]

/-- Gemini's retryability test:
`any(err in error_str.lower() for err in retryable_errors)`. -/
def isGeminiRetryable (e : String) : Bool :=
  geminiRetryableErrors.any fun p => strHasSub (strLower e) p

/-- The success dictionary built by `call_gemini_with_prompts`: when the
vendor response carries usage metadata it is used as-is, otherwise tokens
are estimated as character length divided by 4 (truncating division). -/
def geminiSuccessResult (system_prompt human_prompt model text : String)
    (u : Option (Nat × Nat)) : CallResult :=
  let counts := match u with
    | some (i, o) => (i, o)
    | none => ((system_prompt ++ human_prompt).length / 4, text.length / 4)
  { content := some text
    usage := ⟨counts.1, counts.2, counts.1 + counts.2⟩
    model := model
    provider := some "gemini"
    cost := none
    error := none
    search_results := none
    search_enhanced := none }

/-- The error dictionary built by `call_gemini_with_prompts`. -/
def geminiErrorResult (model msg : String) : CallResult :=
  { content := some ("Error calling Gemini: " ++ msg)
    usage := zeroUsage
    model := model
    provider := some "gemini"
    cost := none
    error := none
    search_results := none
    search_enhanced := none }

/-- The `for attempt in range(max_retries + 1)` loop of
`call_gemini_with_prompts`.  `remaining = max_retries - attempt`. -/
def geminiLoop (system_prompt human_prompt model : String) (max_retries : Nat)
    (vendor : Nat → VendorOutcome) (jitter : Nat → ℚ) : Nat → Nat → AdapterRun
  | 0, attempt =>
    match vendor attempt with
    | .success text u =>
        { result := some (geminiSuccessResult system_prompt human_prompt model text u)
          sleeps := []
          attempts := 1 }
    | .failure e =>
        if isGeminiRetryable e then
          { result := some (geminiErrorResult model
              ("Gemini error after " ++ toString (max_retries + 1) ++
                " attempts: " ++ e))
            sleeps := []
            attempts := 1 }
        else
          { result := some (geminiErrorResult model e), sleeps := [], attempts := 1 }
  | r + 1, attempt =>
    match vendor attempt with
    | .success text u =>
        { result := some (geminiSuccessResult system_prompt human_prompt model text u)
          sleeps := []
          attempts := 1 }
    | .failure e =>
        if isGeminiRetryable e then
          let rest := geminiLoop system_prompt human_prompt model max_retries
            vendor jitter r (attempt + 1)
          { result := rest.result
            sleeps := ((2 : ℚ) ^ attempt + jitter attempt) :: rest.sleeps
            attempts := rest.attempts + 1 }
        else
          { result := some (geminiErrorResult model e), sleeps := [], attempts := 1 }

/-- `call_gemini_with_prompts(system_prompt, human_prompt, model, max_tokens, temperature, max_retries)`. -/
def call_gemini_with_prompts (system_prompt human_prompt model : String)
    (max_tokens : Nat) (temperature : ℚ) (max_retries : Nat)
    (vendor : Nat → VendorOutcome) (jitter : Nat → ℚ) : AdapterRun :=
  geminiLoop system_prompt human_prompt model max_retries vendor jitter max_retries 0

/-! ## Perplexity adapter (`src/ai_clients/perplexity_client.py`) -/

/-- The per-1M-token Perplexity pricing table of `calculate_perplexity_cost`. -/
def perplexityPricing (model : String) : Option (ℚ × ℚ) :=
  if model = "llama-3.1-sonar-small-128k-online" then some (0.20, 0.20)
  else if model = "llama-3.1-sonar-large-128k-online" then some (1.00, 1.00)
  else if model = "llama-3.1-sonar-huge-128k-online" then some (5.00, 5.00)
  else if model = "llama-3.1-8b-instruct" then some (0.20, 0.20)
  else if model = "llama-3.1-70b-instruct" then some (1.00, 1.00)
  else if model = "mixtral-8x7b-instruct" then some (0.60, 0.60)
  else none

/-- `calculate_perplexity_cost(model, input_tokens, output_tokens)`: per-1M
prices are scaled to per-1K rates; unknown models fall back to the hardcoded
default rate of 0.20 per 1M tokens for both directions. -/
def calculate_perplexity_cost (model : String) (input_tokens output_tokens : Nat) : ℚ :=
  let rates : ℚ × ℚ :=
    match perplexityPricing model with
    | none => ((0.20 : ℚ) / 1000, (0.20 : ℚ) / 1000)
    | some (input_cost_per_1m, output_cost_per_1m) =>
        (input_cost_per_1m / 1000, output_cost_per_1m / 1000)
  (input_tokens : ℚ) / 1000 * rates.1 + (output_tokens : ℚ) / 1000 * rates.2

/-- Vendor outcome of one HTTP attempt of the Perplexity adapter: a 200
response (content, prompt/completion token counts, and the optional
`total_tokens` field of the usage object), a non-200 status (with the
optional parsed `Retry-After` header and the response body text), a request
timeout, or any other raised exception. -/
inductive PerplexityOutcome where
  | ok (content : String) (prompt_tokens completion_tokens : Nat) (total_tokens : Option Nat)
  | httpError (status : Nat) (retryAfter : Option Nat) (body : String)
  | timeout
  | exc (msg : String)
deriving Repr, DecidableEq

/-- The error dictionary built by `call_perplexity_with_prompts`
(no `provider` key on error paths). -/
def perplexityErrorResult (model msg : String) : CallResult :=
  { content := none
    usage := zeroUsage
    model := model
    provider := none
    cost := some 0
    error := some msg
    search_results := none
    search_enhanced := none }

/-- The success dictionary built by `call_perplexity_with_prompts`; the
total is the vendor-reported `total_tokens`, defaulting to the sum of the
other two counts when absent. -/
def perplexitySuccessResult (model content : String)
    (input_tokens output_tokens : Nat) (total : Option Nat) : CallResult :=
  { content := some content
    usage := ⟨input_tokens, output_tokens, total.getD (input_tokens + output_tokens)⟩
    model := model
    provider := some "perplexity"
    cost := some (calculate_perplexity_cost model input_tokens output_tokens)
    error := none
    search_results := none
    search_enhanced := none }

/-- The `for attempt in range(max_retries)` loop of
`call_perplexity_with_prompts`.  `fuel` is the number of loop iterations
still available (`max_retries - attempt`); when the loop runs out the
Python function falls off its end and returns `None`.  The in-loop guard
`attempt < max_retries - 1` is equivalent to at least one more iteration
remaining after the current one, i.e. `1 ≤ fuel` below. -/
def perplexityLoop (model : String) (max_retries : Nat)
    (vendor : Nat → PerplexityOutcome) : Nat → Nat → AdapterRun
  | 0, _ => { result := none, sleeps := [], attempts := 0 }
  | fuel + 1, attempt =>
    match vendor attempt with
    | .ok content p q t =>
        { result := some (perplexitySuccessResult model content p q t)
          sleeps := []
          attempts := 1 }
    | .httpError status ra body =>
        if status = 429 then
          let retry_after : Nat := ra.getD 60
          if 1 ≤ fuel then
            let rest := perplexityLoop model max_retries vendor fuel (attempt + 1)
            { result := rest.result
              sleeps := (retry_after : ℚ) :: rest.sleeps
              attempts := rest.attempts + 1 }
          else
            { result := some (perplexityErrorResult model
                ("Rate limit exceeded after " ++ toString max_retries ++ " attempts"))
              sleeps := []
              attempts := 1 }
        else if 500 ≤ status then
          if 1 ≤ fuel then
            let rest := perplexityLoop model max_retries vendor fuel (attempt + 1)
            { result := rest.result
              sleeps := ((2 : ℚ) ^ attempt) :: rest.sleeps
              attempts := rest.attempts + 1 }
          else
            { result := some (perplexityErrorResult model
                ("Server error " ++ toString status ++ " after " ++
                  toString max_retries ++ " attempts"))
              sleeps := []
              attempts := 1 }
        else
          { result := some (perplexityErrorResult model
              ("API error " ++ toString status ++ ": " ++ body))
            sleeps := []
            attempts := 1 }
    | .timeout =>
        if 1 ≤ fuel then
          let rest := perplexityLoop model max_retries vendor fuel (attempt + 1)
          { result := rest.result
            sleeps := ((2 : ℚ) ^ attempt) :: rest.sleeps
            attempts := rest.attempts + 1 }
        else
          { result := some (perplexityErrorResult model
              ("Request timeout after " ++ toString max_retries ++ " attempts"))
            sleeps := []
            attempts := 1 }
    | .exc msg =>
        { result := some (perplexityErrorResult model ("Unexpected error: " ++ msg))
          sleeps := []
          attempts := 1 }

/-- `call_perplexity_with_prompts(system_prompt, user_prompt, model, max_tokens, temperature, max_retries)`.
`api_key_ok` is whether `PERPLEXITY_API_KEY` is set (`check_perplexity_api_key`). -/
def call_perplexity_with_prompts (api_key_ok : Bool)
    (system_prompt user_prompt model : String) (max_tokens : Nat)
    (temperature : ℚ) (max_retries : Nat)
    (vendor : Nat → PerplexityOutcome) : AdapterRun :=
  if api_key_ok then
    perplexityLoop model max_retries vendor max_retries 0
  else
    { result := some (perplexityErrorResult model "Perplexity API key not configured")
      sleeps := []
      attempts := 0 }

/-! ## SearchGPT adapter (`src/ai_clients/searchgpt_client.py`) -/

/-- The per-1M-token OpenAI pricing table of `calculate_searchgpt_cost`. -/
def searchgptPricing (model : String) : Option (ℚ × ℚ) :=
  if model = "gpt-4o" then some (2.50, 10.00)
  else if model = "gpt-4o-mini" then some (0.15, 0.60)
  else if model = "gpt-4-turbo" then some (10.00, 30.00)
  else if model = "gpt-4" then some (30.00, 60.00)
  else if model = "gpt-3.5-turbo" then some (0.50, 1.50)
  else none

/-- `calculate_searchgpt_cost(model, input_tokens, output_tokens)`: unknown
models default to GPT-4o-mini pricing (0.15 / 0.60 per 1M tokens). -/
def calculate_searchgpt_cost (model : String) (input_tokens output_tokens : Nat) : ℚ :=
  let rates : ℚ × ℚ :=
    match searchgptPricing model with
    | none => ((0.15 : ℚ) / 1000, (0.60 : ℚ) / 1000)
    | some (input_cost_per_1m, output_cost_per_1m) =>
        (input_cost_per_1m / 1000, output_cost_per_1m / 1000)
  (input_tokens : ℚ) / 1000 * rates.1 + (output_tokens : ℚ) / 1000 * rates.2

/-- Vendor outcome of one OpenAI attempt inside the SearchGPT adapter: a
completion (content and the three usage counts as reported by the vendor),
an `openai.RateLimitError`, an `openai.APIError` with its status code and
message, or any other raised exception. -/
inductive SearchGptOutcome where
  | ok (content : String) (prompt_tokens completion_tokens total_tokens : Nat)
  | rateLimit
  | apiError (status : Nat) (msg : String)
  | exc (msg : String)
deriving Repr, DecidableEq

/-- The error dictionary built by `call_searchgpt_with_prompts`: it carries
the fetched `search_results` but no `provider` and no `search_enhanced` key. -/
def searchgptErrorResult (model msg : String) (results : List SearchResult) : CallResult :=
  { content := none
    usage := zeroUsage
    model := model
    provider := none
    cost := some 0
    error := some msg
    search_results := some results
    search_enhanced := none }

/-- The success dictionary built by `call_searchgpt_with_prompts`; the
`total_tokens` is the vendor-reported value, and `search_enhanced` records
whether search was enabled and produced at least one result. -/
def searchgptSuccessResult (model content : String)
    (input_tokens output_tokens total_tokens : Nat)
    (results : List SearchResult) (search_enabled : Bool) : CallResult :=
  { content := some content
    usage := ⟨input_tokens, output_tokens, total_tokens⟩
    model := model
    provider := some "searchgpt"
    cost := some (calculate_searchgpt_cost model input_tokens output_tokens)
    error := none
    search_results := some results
    search_enhanced := some (search_enabled && decide (0 < results.length)) }

/-- The formatted search context block the adapter prepends when the search
backend returned at least one result (numbered from 1). -/
def searchContext (results : List SearchResult) : String :=
  "Recent web search results:\n\n" ++
    String.join (results.enum.map fun p =>
      toString (p.1 + 1) ++ ". " ++ p.2.title ++ "\n   " ++ p.2.snippet ++
        "\n   Source: " ++ p.2.link ++ "\n\n")

/-- The enhanced prompt built from the search results; with zero results the
original user prompt is used unmodified. -/
def enhancedPrompt (user_prompt : String) (search_enabled : Bool)
    (results : List SearchResult) : String :=
  if search_enabled && decide (0 < results.length) then
    searchContext results ++ "\nUser Question: " ++ user_prompt ++
      "\n\nPlease provide a comprehensive answer using the above search results and your knowledge. Include relevant sources when appropriate."
  else
    user_prompt

/-- The `for attempt in range(max_retries)` loop of
`call_searchgpt_with_prompts`; falls off the end (returning `None`) when
`max_retries` is zero, exactly as for the Perplexity adapter. -/
def searchgptLoop (model : String) (max_retries : Nat)
    (results : List SearchResult) (search_enabled : Bool)
    (vendor : Nat → SearchGptOutcome) : Nat → Nat → AdapterRun
  | 0, _ => { result := none, sleeps := [], attempts := 0 }
  | fuel + 1, attempt =>
    match vendor attempt with
    | .ok content p q t =>
        { result := some (searchgptSuccessResult model content p q t results search_enabled)
          sleeps := []
          attempts := 1 }
    | .rateLimit =>
        if 1 ≤ fuel then
          let rest := searchgptLoop model max_retries results search_enabled vendor fuel (attempt + 1)
          { result := rest.result
            sleeps := (60 : ℚ) :: rest.sleeps
            attempts := rest.attempts + 1 }
        else
          { result := some (searchgptErrorResult model
              ("Rate limit exceeded after " ++ toString max_retries ++ " attempts") results)
            sleeps := []
            attempts := 1 }
    | .apiError status msg =>
        if 1 ≤ fuel then
          let rest := searchgptLoop model max_retries results search_enabled vendor fuel (attempt + 1)
          { result := rest.result
            sleeps := ((2 : ℚ) ^ attempt) :: rest.sleeps
            attempts := rest.attempts + 1 }
        else
          { result := some (searchgptErrorResult model
              ("OpenAI API error " ++ toString status ++ " after " ++
                toString max_retries ++ " attempts: " ++ msg) results)
            sleeps := []
            attempts := 1 }
    | .exc msg =>
        { result := some (searchgptErrorResult model ("Unexpected error: " ++ msg) results)
          sleeps := []
          attempts := 1 }

/-- `call_searchgpt_with_prompts(system_prompt, user_prompt, model, max_tokens, temperature, max_retries, search_enabled)`.
`openai_key_ok` / `serper_key_ok` are whether the two environment keys are
set (`check_searchgpt_api_keys` requires both), `backendResults` is what
`search_web` returns (empty on any search failure, never raising).  The
second component of the returned pair is the prompt actually sent to the
model (the enhanced prompt, or the original user prompt). -/
def call_searchgpt_with_prompts (openai_key_ok serper_key_ok : Bool)
    (system_prompt user_prompt model : String) (max_tokens : Nat)
    (temperature : ℚ) (max_retries : Nat) (search_enabled : Bool)
    (backendResults : List SearchResult)
    (vendor : Nat → SearchGptOutcome) : AdapterRun × String :=
  if !(openai_key_ok && serper_key_ok) then
    ({ result := some
        { content := none
          usage := zeroUsage
          model := model
          provider := none
          cost := some 0
          error := some "SearchGPT API keys not configured"
          search_results := some []
          search_enhanced := none }
       sleeps := []
       attempts := 0 }, user_prompt)
  else
    let results := if search_enabled then backendResults else []
    (searchgptLoop model max_retries results search_enabled vendor max_retries 0,
     enhancedPrompt user_prompt search_enabled results)

/-! ## Orchestrator (`main.py`) -/

/-- One tier's per-provider model selections. -/
structure TierConfig where
  description : String
  claude : String
  openai : String
  gemini : String
  synthesis : String
deriving Repr, DecidableEq

/-- The `TIERS` configuration table of `main.py`. -/
def TIERS (name : String) : Option TierConfig :=
  if name = "economy" then
    some { description := "Economy tier - cheapest models for cost-effective processing"
           claude := "claude-3-5-haiku-20241022"
           openai := "gpt-4o-mini"
           gemini := "gemini-1.5-flash"
           synthesis := "claude-3-5-haiku-20241022" }
  else if name = "mid" then
    some { description := "Mid tier - balanced cost and quality with premium synthesis"
           claude := "claude-3-5-haiku-20241022"
           openai := "gpt-4o-mini"
           gemini := "gemini-1.5-flash"
           synthesis := "claude-3-5-sonnet-20241022" }
  else if name = "luxury" then
    some { description := "Luxury tier - premium models for maximum quality"
           claude := "claude-3-5-sonnet-20241022"
           openai := "gpt-4"
           gemini := "gemini-1.5-pro"
           synthesis := "claude-3-5-sonnet-20241022" }
  else none

/-- The primary per-1K-token `PRICING` table of `main.py`. -/
def PRICING (model : String) : Option (ℚ × ℚ) :=
  if model = "claude-3-5-haiku-20241022" then some (0.25, 1.25)
  else if model = "claude-3-5-sonnet-20241022" then some (3.00, 15.00)
  else if model = "gpt-4o-mini" then some (0.15, 0.60)
  else if model = "gpt-4" then some (30.00, 60.00)
  else if model = "gemini-1.5-flash" then some (0.075, 0.30)
  else if model = "gemini-1.5-pro" then some (1.25, 5.00)
  else none

/-- `calculate_cost(usage, model)` of `main.py`: zero for models absent from
the primary table, otherwise `input_tokens * input_price / 1000 +
output_tokens * output_price / 1000`. -/
def calculate_cost (usage : TokenUsage) (model : String) : ℚ :=
  match PRICING model with
  | none => 0
  | some (input_price, output_price) =>
      (usage.input_tokens : ℚ) * input_price / 1000 +
        (usage.output_tokens : ℚ) * output_price / 1000

/-- The multi-call aggregated dictionary built by `compare_providers` for
`num_calls > 1`. -/
structure AggregatedResult where
  content : String
  model : String
  usage : TokenUsage
  individual_responses : List CallResult
deriving Repr, DecidableEq

/-- What `compare_providers` stores for one provider: either the single
call's dictionary unmodified (`num_calls == 1`) or the aggregated
dictionary. -/
inductive ProviderEntry where
  | single (r : CallResult)
  | aggregated (a : AggregatedResult)
deriving Repr, DecidableEq

/-- The `model` field of a provider entry. -/
def ProviderEntry.modelOf : ProviderEntry → String
  | .single r => r.model
  | .aggregated a => a.model

/-- The separator placed between concatenated call contents. -/
def callSeparator : String := "\n\n---\n\n"

/-- Componentwise accumulation of one usage dictionary into the running
totals (`total_usage["..."] += usage.get("...", 0)`). -/
def addUsage (acc u : TokenUsage) : TokenUsage :=
  ⟨acc.input_tokens + u.input_tokens,
   acc.output_tokens + u.output_tokens,
   acc.total_tokens + u.total_tokens⟩

/-- The per-provider body of the `compare_providers` loop: make `num_calls`
sequential calls (the `call` oracle gives the result of the i-th call),
accumulate usage, and either keep the single response as-is or build the
aggregated dictionary with the `"[n calls made]"` prefix and separator-joined
contents. -/
def aggregate_provider (call : Nat → CallResult) (model : String)
    (num_calls : Nat) : ProviderEntry :=
  let provider_responses := (List.range num_calls).map call
  let total_usage := provider_responses.foldl (fun acc r => addUsage acc r.usage) zeroUsage
  if num_calls = 1 then
    .single (call 0)
  else
    .aggregated
      { content := "[" ++ toString num_calls ++ " calls made]\n" ++
          String.intercalate callSeparator (provider_responses.map fun r => r.content.getD "")
        model := model
        usage := total_usage
        individual_responses := provider_responses }

/-- `compare_providers(system_prompt, human_prompt, tier, max_tokens, temperature, num_calls)`:
resolve the tier to per-provider models and invoke the three adapters in the
fixed order claude, openai, gemini, storing one entry per provider key.  The
adapters (with the prompts and generation parameters already bound) are
abstracted as per-model call oracles. -/
def compare_providers (tier : TierConfig)
    (claude_call openai_call gemini_call : String → Nat → CallResult)
    (num_calls : Nat) : List (String × ProviderEntry) :=
  [("claude", aggregate_provider (claude_call tier.claude) tier.claude num_calls),
   ("openai", aggregate_provider (openai_call tier.openai) tier.openai num_calls),
   ("gemini", aggregate_provider (gemini_call tier.gemini) tier.gemini num_calls)]

/-! ## Loop characterization lemmas -/

lemma claudeLoop_persistent (model e : String) (mr : Nat) (j : Nat → ℚ)
    (he : isClaudeRetryable e = true) :
    ∀ r a, claudeLoop model mr (fun _ => .failure e) j r a =
      { result := some (claudeErrorResult model
          ("Claude overloaded after " ++ toString (mr + 1) ++ " attempts: " ++ e))
        sleeps := backoffFrom j a r
        attempts := r + 1 }
  | 0, a => by simp [claudeLoop, he, backoffFrom]
  | r + 1, a => by
      simp only [claudeLoop, he, if_true]
      rw [claudeLoop_persistent model e mr j he r (a + 1)]
      simp [backoffFrom]

lemma claudeLoop_fatal (model e : String) (mr : Nat) (v : Nat → VendorOutcome)
    (j : Nat → ℚ) (r a : Nat) (hv : v a = .failure e)
    (he : isClaudeRetryable e = false) :
    claudeLoop model mr v j r a =
      { result := some (claudeErrorResult model e), sleeps := [], attempts := 1 } := by
  cases r <;> simp [claudeLoop, hv, he]

lemma claudeLoop_success (model : String) (mr : Nat) (v : Nat → VendorOutcome)
    (j : Nat → ℚ) (r a : Nat) (text : String) (u : Option (Nat × Nat))
    (hv : v a = .success text u) :
    claudeLoop model mr v j r a =
      { result := some (claudeSuccessResult model text u), sleeps := [], attempts := 1 } := by
  cases r <;> simp [claudeLoop, hv]

lemma claudeLoop_usage_inv (model : String) (mr : Nat) (v : Nat → VendorOutcome)
    (j : Nat → ℚ) :
    ∀ r a cr, (claudeLoop model mr v j r a).result = some cr →
      cr.usage.total_tokens = cr.usage.input_tokens + cr.usage.output_tokens
  | 0, a, cr => by
      cases hv : v a with
      | success t u =>
          simp [claudeLoop, hv, claudeSuccessResult]
          rintro rfl; simp
      | failure e =>
          by_cases he : isClaudeRetryable e <;>
            · simp [claudeLoop, hv, he, claudeErrorResult]
              rintro rfl; simp [zeroUsage]
  | r + 1, a, cr => by
      cases hv : v a with
      | success t u =>
          simp [claudeLoop, hv, claudeSuccessResult]
          rintro rfl; simp
      | failure e =>
          by_cases he : isClaudeRetryable e
          · simp only [claudeLoop, hv, he, if_true]
            exact claudeLoop_usage_inv model mr v j r (a + 1) cr
          · simp [claudeLoop, hv, he, claudeErrorResult]
            rintro rfl; simp [zeroUsage]

lemma claudeLoop_allfail_zero (model : String) (mr : Nat) (v : Nat → VendorOutcome)
    (j : Nat → ℚ) (hv : ∀ i, (v i).isFailure = true) :
    ∀ r a cr, (claudeLoop model mr v j r a).result = some cr → cr.usage = zeroUsage
  | 0, a, cr => by
      cases hva : v a with
      | success t u => have := hv a; rw [hva] at this; simp [VendorOutcome.isFailure] at this
      | failure e =>
          by_cases he : isClaudeRetryable e <;>
            · simp [claudeLoop, hva, he, claudeErrorResult]
              rintro rfl; rfl
  | r + 1, a, cr => by
      cases hva : v a with
      | success t u => have := hv a; rw [hva] at this; simp [VendorOutcome.isFailure] at this
      | failure e =>
          by_cases he : isClaudeRetryable e
          · simp only [claudeLoop, hva, he, if_true]
            exact claudeLoop_allfail_zero model mr v j hv r (a + 1) cr
          · simp [claudeLoop, hva, he, claudeErrorResult]
            rintro rfl; rfl

lemma openaiLoop_persistent (model e : String) (mr : Nat) (j : Nat → ℚ)
    (he : isOpenaiRetryable e = true) :
    ∀ r a, openaiLoop model mr (fun _ => .failure e) j r a =
      { result := some (openaiErrorResult model
          ("OpenAI error after " ++ toString (mr + 1) ++ " attempts: " ++ e))
        sleeps := backoffFrom j a r
        attempts := r + 1 }
  | 0, a => by simp [openaiLoop, he, backoffFrom]
  | r + 1, a => by
      simp only [openaiLoop, he, if_true]
      rw [openaiLoop_persistent model e mr j he r (a + 1)]
      simp [backoffFrom]

lemma openaiLoop_fatal (model e : String) (mr : Nat) (v : Nat → VendorOutcome)
    (j : Nat → ℚ) (r a : Nat) (hv : v a = .failure e)
    (he : isOpenaiRetryable e = false) :
    openaiLoop model mr v j r a =
      { result := some (openaiErrorResult model e), sleeps := [], attempts := 1 } := by
  cases r <;> simp [openaiLoop, hv, he]

lemma openaiLoop_usage_inv (model : String) (mr : Nat) (v : Nat → VendorOutcome)
    (j : Nat → ℚ) :
    ∀ r a cr, (openaiLoop model mr v j r a).result = some cr →
      cr.usage.total_tokens = cr.usage.input_tokens + cr.usage.output_tokens
  | 0, a, cr => by
      cases hv : v a with
      | success t u =>
          simp [openaiLoop, hv, openaiSuccessResult]
          rintro rfl; simp
      | failure e =>
          by_cases he : isOpenaiRetryable e <;>
            · simp [openaiLoop, hv, he, openaiErrorResult]
              rintro rfl; simp [zeroUsage]
  | r + 1, a, cr => by
      cases hv : v a with
      | success t u =>
          simp [openaiLoop, hv, openaiSuccessResult]
          rintro rfl; simp
      | failure e =>
          by_cases he : isOpenaiRetryable e
          · simp only [openaiLoop, hv, he, if_true]
            exact openaiLoop_usage_inv model mr v j r (a + 1) cr
          · simp [openaiLoop, hv, he, openaiErrorResult]
            rintro rfl; simp [zeroUsage]

lemma openaiLoop_allfail_zero (model : String) (mr : Nat) (v : Nat → VendorOutcome)
    (j : Nat → ℚ) (hv : ∀ i, (v i).isFailure = true) :
    ∀ r a cr, (openaiLoop model mr v j r a).result = some cr → cr.usage = zeroUsage
  | 0, a, cr => by
      cases hva : v a with
      | success t u => have := hv a; rw [hva] at this; simp [VendorOutcome.isFailure] at this
      | failure e =>
          by_cases he : isOpenaiRetryable e <;>
            · simp [openaiLoop, hva, he, openaiErrorResult]
              rintro rfl; rfl
  | r + 1, a, cr => by
      cases hva : v a with
      | success t u => have := hv a; rw [hva] at this; simp [VendorOutcome.isFailure] at this
      | failure e =>
          by_cases he : isOpenaiRetryable e
          · simp only [openaiLoop, hva, he, if_true]
            exact openaiLoop_allfail_zero model mr v j hv r (a + 1) cr
          · simp [openaiLoop, hva, he, openaiErrorResult]
            rintro rfl; rfl

lemma geminiLoop_persistent (sys hum model e : String) (mr : Nat) (j : Nat → ℚ)
    (he : isGeminiRetryable e = true) :
    ∀ r a, geminiLoop sys hum model mr (fun _ => .failure e) j r a =
      { result := some (geminiErrorResult model
          ("Gemini error after " ++ toString (mr + 1) ++ " attempts: " ++ e))
        sleeps := backoffFrom j a r
        attempts := r + 1 }
  | 0, a => by simp [geminiLoop, he, backoffFrom]
  | r + 1, a => by
      simp only [geminiLoop, he, if_true]
      rw [geminiLoop_persistent sys hum model e mr j he r (a + 1)]
      simp [backoffFrom]

lemma geminiLoop_fatal (sys hum model e : String) (mr : Nat)
    (v : Nat → VendorOutcome) (j : Nat → ℚ) (r a : Nat) (hv : v a = .failure e)
    (he : isGeminiRetryable e = false) :
    geminiLoop sys hum model mr v j r a =
      { result := some (geminiErrorResult model e), sleeps := [], attempts := 1 } := by
  cases r <;> simp [geminiLoop, hv, he]

lemma geminiLoop_success (sys hum model : String) (mr : Nat)
    (v : Nat → VendorOutcome) (j : Nat → ℚ) (r a : Nat) (text : String)
    (u : Option (Nat × Nat)) (hv : v a = .success text u) :
    geminiLoop sys hum model mr v j r a =
      { result := some (geminiSuccessResult sys hum model text u)
        sleeps := [], attempts := 1 } := by
  cases r <;> simp [geminiLoop, hv]

lemma geminiLoop_usage_inv (sys hum model : String) (mr : Nat)
    (v : Nat → VendorOutcome) (j : Nat → ℚ) :
    ∀ r a cr, (geminiLoop sys hum model mr v j r a).result = some cr →
      cr.usage.total_tokens = cr.usage.input_tokens + cr.usage.output_tokens
  | 0, a, cr => by
      cases hv : v a with
      | success t u =>
          simp [geminiLoop, hv, geminiSuccessResult]
          rintro rfl; simp
      | failure e =>
          by_cases he : isGeminiRetryable e <;>
            · simp [geminiLoop, hv, he, geminiErrorResult]
              rintro rfl; simp [zeroUsage]
  | r + 1, a, cr => by
      cases hv : v a with
      | success t u =>
          simp [geminiLoop, hv, geminiSuccessResult]
          rintro rfl; simp
      | failure e =>
          by_cases he : isGeminiRetryable e
          · simp only [geminiLoop, hv, he, if_true]
            exact geminiLoop_usage_inv sys hum model mr v j r (a + 1) cr
          · simp [geminiLoop, hv, he, geminiErrorResult]
            rintro rfl; simp [zeroUsage]

lemma geminiLoop_allfail_zero (sys hum model : String) (mr : Nat)
    (v : Nat → VendorOutcome) (j : Nat → ℚ) (hv : ∀ i, (v i).isFailure = true) :
    ∀ r a cr, (geminiLoop sys hum model mr v j r a).result = some cr → cr.usage = zeroUsage
  | 0, a, cr => by
      cases hva : v a with
      | success t u => have := hv a; rw [hva] at this; simp [VendorOutcome.isFailure] at this
      | failure e =>
          by_cases he : isGeminiRetryable e <;>
            · simp [geminiLoop, hva, he, geminiErrorResult]
              rintro rfl; rfl
  | r + 1, a, cr => by
      cases hva : v a with
      | success t u => have := hv a; rw [hva] at this; simp [VendorOutcome.isFailure] at this
      | failure e =>
          by_cases he : isGeminiRetryable e
          · simp only [geminiLoop, hva, he, if_true]
            exact geminiLoop_allfail_zero sys hum model mr v j hv r (a + 1) cr
          · simp [geminiLoop, hva, he, geminiErrorResult]
            rintro rfl; rfl

lemma perplexityLoop_timeout_persistent (m : String) (mr : Nat) :
    ∀ fuel a, perplexityLoop m mr (fun _ => .timeout) fuel a =
      { result := if fuel = 0 then none else
          some (perplexityErrorResult m
            ("Request timeout after " ++ toString mr ++ " attempts"))
        sleeps := powersFrom a (fuel - 1)
        attempts := fuel }
  | 0, a => by simp [perplexityLoop, powersFrom]
  | 1, a => by simp [perplexityLoop, powersFrom]
  | (f + 2), a => by
      have hf : 1 ≤ f + 1 := Nat.succ_le_succ (Nat.zero_le f)
      conv_lhs => rw [perplexityLoop]
      rw [perplexityLoop_timeout_persistent m mr (f + 1) (a + 1)]
      simp [powersFrom, hf]

lemma perplexityLoop_429_persistent (m : String) (mr : Nat) (ra : Option Nat)
    (body : String) :
    ∀ fuel a, perplexityLoop m mr (fun _ => .httpError 429 ra body) fuel a =
      { result := if fuel = 0 then none else
          some (perplexityErrorResult m
            ("Rate limit exceeded after " ++ toString mr ++ " attempts"))
        sleeps := List.replicate (fuel - 1) ((ra.getD 60 : Nat) : ℚ)
        attempts := fuel }
  | 0, a => by simp [perplexityLoop]
  | 1, a => by simp [perplexityLoop]
  | (f + 2), a => by
      have hf : 1 ≤ f + 1 := Nat.succ_le_succ (Nat.zero_le f)
      conv_lhs => rw [perplexityLoop]
      rw [perplexityLoop_429_persistent m mr ra body (f + 1) (a + 1)]
      simp [List.replicate_succ, hf]

lemma perplexityLoop_5xx_persistent (m : String) (mr : Nat) (status : Nat)
    (ra : Option Nat) (body : String) (hs : status ≠ 429) (h5 : 500 ≤ status) :
    ∀ fuel a, perplexityLoop m mr (fun _ => .httpError status ra body) fuel a =
      { result := if fuel = 0 then none else
          some (perplexityErrorResult m
            ("Server error " ++ toString status ++ " after " ++
              toString mr ++ " attempts"))
        sleeps := powersFrom a (fuel - 1)
        attempts := fuel }
  | 0, a => by simp [perplexityLoop, powersFrom]
  | 1, a => by simp [perplexityLoop, powersFrom, hs, h5]
  | (f + 2), a => by
      have hf : 1 ≤ f + 1 := Nat.succ_le_succ (Nat.zero_le f)
      conv_lhs => rw [perplexityLoop]
      rw [perplexityLoop_5xx_persistent m mr status ra body hs h5 (f + 1) (a + 1)]
      simp [powersFrom, hs, h5, hf]

lemma perplexityLoop_client_error (m : String) (mr : Nat)
    (v : Nat → PerplexityOutcome) (fuel a status : Nat) (ra : Option Nat)
    (body : String) (hv : v a = .httpError status ra body)
    (hs : status ≠ 429) (h5 : status < 500) :
    perplexityLoop m mr v (fuel + 1) a =
      { result := some (perplexityErrorResult m
          ("API error " ++ toString status ++ ": " ++ body))
        sleeps := [], attempts := 1 } := by
  simp [perplexityLoop, hv, hs, Nat.not_le_of_lt h5]

lemma perplexityLoop_exc (m : String) (mr : Nat) (v : Nat → PerplexityOutcome)
    (fuel a : Nat) (msg : String) (hv : v a = .exc msg) :
    perplexityLoop m mr v (fuel + 1) a =
      { result := some (perplexityErrorResult m ("Unexpected error: " ++ msg))
        sleeps := [], attempts := 1 } := by
  simp [perplexityLoop, hv]

lemma perplexityLoop_ok (m : String) (mr : Nat) (v : Nat → PerplexityOutcome)
    (fuel a : Nat) (c : String) (p q : Nat) (t : Option Nat)
    (hv : v a = .ok c p q t) :
    perplexityLoop m mr v (fuel + 1) a =
      { result := some (perplexitySuccessResult m c p q t)
        sleeps := [], attempts := 1 } := by
  simp [perplexityLoop, hv]

lemma perplexityLoop_error_zero (m : String) (mr : Nat)
    (v : Nat → PerplexityOutcome) :
    ∀ fuel a cr, (perplexityLoop m mr v fuel a).result = some cr →
      cr.error ≠ none → cr.usage = zeroUsage
  | 0, a, cr => by simp [perplexityLoop]
  | fuel + 1, a, cr => by
      cases hv : v a with
      | ok c p q t =>
          simp [perplexityLoop, hv, perplexitySuccessResult]
          rintro rfl; simp
      | httpError status ra body =>
          by_cases hs : status = 429
          · subst hs
            by_cases hf : 1 ≤ fuel
            · simp only [perplexityLoop, hv, if_pos rfl, if_pos hf]
              exact fun h he => perplexityLoop_error_zero m mr v fuel (a + 1) cr h he
            · simp [perplexityLoop, hv, hf, perplexityErrorResult]
              rintro rfl _; rfl
          · by_cases h5 : 500 ≤ status
            · by_cases hf : 1 ≤ fuel
              · simp only [perplexityLoop, hv, if_neg hs, if_pos h5, if_pos hf]
                exact fun h he => perplexityLoop_error_zero m mr v fuel (a + 1) cr h he
              · simp [perplexityLoop, hv, hs, h5, hf, perplexityErrorResult]
                rintro rfl _; rfl
            · simp [perplexityLoop, hv, hs, h5, perplexityErrorResult]
              rintro rfl _; rfl
      | timeout =>
          by_cases hf : 1 ≤ fuel
          · simp only [perplexityLoop, hv, if_pos hf]
            exact fun h he => perplexityLoop_error_zero m mr v fuel (a + 1) cr h he
          · simp [perplexityLoop, hv, hf, perplexityErrorResult]
            rintro rfl _; rfl
      | exc msg =>
          simp [perplexityLoop, hv, perplexityErrorResult]
          rintro rfl _; rfl

lemma perplexityLoop_usage_inv (m : String) (mr : Nat)
    (v : Nat → PerplexityOutcome)
    (hv : ∀ i c p q t, v i = .ok c p q t → t = none ∨ t = some (p + q)) :
    ∀ fuel a cr, (perplexityLoop m mr v fuel a).result = some cr →
      cr.usage.total_tokens = cr.usage.input_tokens + cr.usage.output_tokens
  | 0, a, cr => by simp [perplexityLoop]
  | fuel + 1, a, cr => by
      cases hva : v a with
      | ok c p q t =>
          simp [perplexityLoop, hva, perplexitySuccessResult]
          rintro rfl
          rcases hv a c p q t hva with h | h <;> simp [h]
      | httpError status ra body =>
          by_cases hs : status = 429
          · subst hs
            by_cases hf : 1 ≤ fuel
            · simp only [perplexityLoop, hva, if_pos rfl, if_pos hf]
              exact fun h => perplexityLoop_usage_inv m mr v hv fuel (a + 1) cr h
            · simp [perplexityLoop, hva, hf, perplexityErrorResult]
              rintro rfl; simp [zeroUsage]
          · by_cases h5 : 500 ≤ status
            · by_cases hf : 1 ≤ fuel
              · simp only [perplexityLoop, hva, if_neg hs, if_pos h5, if_pos hf]
                exact fun h => perplexityLoop_usage_inv m mr v hv fuel (a + 1) cr h
              · simp [perplexityLoop, hva, hs, h5, hf, perplexityErrorResult]
                rintro rfl; simp [zeroUsage]
            · simp [perplexityLoop, hva, hs, h5, perplexityErrorResult]
              rintro rfl; simp [zeroUsage]
      | timeout =>
          by_cases hf : 1 ≤ fuel
          · simp only [perplexityLoop, hva, if_pos hf]
            exact fun h => perplexityLoop_usage_inv m mr v hv fuel (a + 1) cr h
          · simp [perplexityLoop, hva, hf, perplexityErrorResult]
            rintro rfl; simp [zeroUsage]
      | exc msg =>
          simp [perplexityLoop, hva, perplexityErrorResult]
          rintro rfl; simp [zeroUsage]

lemma searchgptLoop_rateLimit_persistent (m : String) (mr : Nat)
    (results : List SearchResult) (se : Bool) :
    ∀ fuel a, searchgptLoop m mr results se (fun _ => .rateLimit) fuel a =
      { result := if fuel = 0 then none else
          some (searchgptErrorResult m
            ("Rate limit exceeded after " ++ toString mr ++ " attempts") results)
        sleeps := List.replicate (fuel - 1) (60 : ℚ)
        attempts := fuel }
  | 0, a => by simp [searchgptLoop]
  | 1, a => by simp [searchgptLoop]
  | (f + 2), a => by
      have hf : 1 ≤ f + 1 := Nat.succ_le_succ (Nat.zero_le f)
      conv_lhs => rw [searchgptLoop]
      rw [searchgptLoop_rateLimit_persistent m mr results se (f + 1) (a + 1)]
      simp [List.replicate_succ, hf]

lemma searchgptLoop_apiError_persistent (m : String) (mr : Nat)
    (results : List SearchResult) (se : Bool) (status : Nat) (msg : String) :
    ∀ fuel a, searchgptLoop m mr results se (fun _ => .apiError status msg) fuel a =
      { result := if fuel = 0 then none else
          some (searchgptErrorResult m
            ("OpenAI API error " ++ toString status ++ " after " ++
              toString mr ++ " attempts: " ++ msg) results)
        sleeps := powersFrom a (fuel - 1)
        attempts := fuel }
  | 0, a => by simp [searchgptLoop, powersFrom]
  | 1, a => by simp [searchgptLoop, powersFrom]
  | (f + 2), a => by
      have hf : 1 ≤ f + 1 := Nat.succ_le_succ (Nat.zero_le f)
      conv_lhs => rw [searchgptLoop]
      rw [searchgptLoop_apiError_persistent m mr results se status msg (f + 1) (a + 1)]
      simp [powersFrom, hf]

lemma searchgptLoop_exc (m : String) (mr : Nat) (results : List SearchResult)
    (se : Bool) (v : Nat → SearchGptOutcome) (fuel a : Nat) (msg : String)
    (hv : v a = .exc msg) :
    searchgptLoop m mr results se v (fuel + 1) a =
      { result := some (searchgptErrorResult m ("Unexpected error: " ++ msg) results)
        sleeps := [], attempts := 1 } := by
  simp [searchgptLoop, hv]

lemma searchgptLoop_ok (m : String) (mr : Nat) (results : List SearchResult)
    (se : Bool) (v : Nat → SearchGptOutcome) (fuel a : Nat) (c : String)
    (p q t : Nat) (hv : v a = .ok c p q t) :
    searchgptLoop m mr results se v (fuel + 1) a =
      { result := some (searchgptSuccessResult m c p q t results se)
        sleeps := [], attempts := 1 } := by
  simp [searchgptLoop, hv]

lemma searchgptLoop_error_zero (m : String) (mr : Nat)
    (results : List SearchResult) (se : Bool) (v : Nat → SearchGptOutcome) :
    ∀ fuel a cr, (searchgptLoop m mr results se v fuel a).result = some cr →
      cr.error ≠ none → cr.usage = zeroUsage
  | 0, a, cr => by simp [searchgptLoop]
  | fuel + 1, a, cr => by
      cases hv : v a with
      | ok c p q t =>
          simp [searchgptLoop, hv, searchgptSuccessResult]
          rintro rfl; simp
      | rateLimit =>
          by_cases hf : 1 ≤ fuel
          · simp only [searchgptLoop, hv, if_pos hf]
            exact fun h he => searchgptLoop_error_zero m mr results se v fuel (a + 1) cr h he
          · simp [searchgptLoop, hv, hf, searchgptErrorResult]
            rintro rfl _; rfl
      | apiError status msg =>
          by_cases hf : 1 ≤ fuel
          · simp only [searchgptLoop, hv, if_pos hf]
            exact fun h he => searchgptLoop_error_zero m mr results se v fuel (a + 1) cr h he
          · simp [searchgptLoop, hv, hf, searchgptErrorResult]
            rintro rfl _; rfl
      | exc msg =>
          simp [searchgptLoop, hv, searchgptErrorResult]
          rintro rfl _; rfl

lemma searchgptLoop_usage_inv (m : String) (mr : Nat)
    (results : List SearchResult) (se : Bool) (v : Nat → SearchGptOutcome)
    (hv : ∀ i c p q t, v i = .ok c p q t → t = p + q) :
    ∀ fuel a cr, (searchgptLoop m mr results se v fuel a).result = some cr →
      cr.usage.total_tokens = cr.usage.input_tokens + cr.usage.output_tokens
  | 0, a, cr => by simp [searchgptLoop]
  | fuel + 1, a, cr => by
      cases hva : v a with
      | ok c p q t =>
          simp [searchgptLoop, hva, searchgptSuccessResult]
          rintro rfl
          simp [hv a c p q t hva]
      | rateLimit =>
          by_cases hf : 1 ≤ fuel
          · simp only [searchgptLoop, hva, if_pos hf]
            exact fun h => searchgptLoop_usage_inv m mr results se v hv fuel (a + 1) cr h
          · simp [searchgptLoop, hva, hf, searchgptErrorResult]
            rintro rfl; simp [zeroUsage]
      | apiError status msg =>
          by_cases hf : 1 ≤ fuel
          · simp only [searchgptLoop, hva, if_pos hf]
            exact fun h => searchgptLoop_usage_inv m mr results se v hv fuel (a + 1) cr h
          · simp [searchgptLoop, hva, hf, searchgptErrorResult]
            rintro rfl; simp [zeroUsage]
      | exc msg =>
          simp [searchgptLoop, hva, searchgptErrorResult]
          rintro rfl; simp [zeroUsage]

lemma foldl_addUsage (rs : List CallResult) (acc : TokenUsage) :
    rs.foldl (fun a r => addUsage a r.usage) acc =
      ⟨acc.input_tokens + (rs.map fun r => r.usage.input_tokens).sum,
       acc.output_tokens + (rs.map fun r => r.usage.output_tokens).sum,
       acc.total_tokens + (rs.map fun r => r.usage.total_tokens).sum⟩ := by
  induction rs generalizing acc with
  | nil => simp
  | cons r rs ih =>
      rw [List.foldl_cons, ih]
      simp [addUsage, Nat.add_assoc]

lemma PRICING_nonneg (m : String) (p : ℚ × ℚ) (h : PRICING m = some p) :
    0 ≤ p.1 ∧ 0 ≤ p.2 := by
  unfold PRICING at h
  split_ifs at h <;> (injection h with h2; subst h2; constructor <;> norm_num)

/-! ## Claim theorems -/

/-- C6: the primary cost calculator computes
`input_tokens / 1000 * input_price + output_tokens / 1000 * output_price`
from the static per-1K table, so `gpt-4` with 1000 input and 1000 output
tokens costs exactly 90.00; any model absent from the primary table costs 0,
while the Perplexity- and SearchGPT-specific calculators fall back to
hardcoded nonzero default rates for unknown models (so the same token counts
cost a nonzero amount there); the result is never negative for any usage
(token counts are naturals), and as a total Lean function it never raises. -/
theorem cost_calculator_behaviour (u : TokenUsage) (m mp ms : String)
    (h : PRICING m = none) (hp : perplexityPricing mp = none)
    (hs : searchgptPricing ms = none) :
    calculate_cost ⟨1000, 1000, 2000⟩ "gpt-4" = 90
  ∧ calculate_cost u m = 0
  ∧ calculate_perplexity_cost mp 1000 1000 ≠ 0
  ∧ calculate_searchgpt_cost ms 1000 1000 ≠ 0
  ∧ ∀ (u2 : TokenUsage) (m2 : String), 0 ≤ calculate_cost u2 m2 := by
  refine ⟨?_, ?_, ?_, ?_, ?_⟩
  · have hg : PRICING "gpt-4" = some (30.00, 60.00) := rfl
    simp [calculate_cost, hg]
    norm_num
  · simp [calculate_cost, h]
  · simp [calculate_perplexity_cost, hp]
    norm_num
  · simp [calculate_searchgpt_cost, hs]
    norm_num
  · intro u2 m2
    unfold calculate_cost
    cases hP : PRICING m2 with
    | none => simp
    | some pr =>
        obtain ⟨h1, h2⟩ := PRICING_nonneg m2 pr hP
        cases pr with
        | mk ip op =>
            simp only
            apply add_nonneg <;> apply div_nonneg <;>
              first
                | exact mul_nonneg (Nat.cast_nonneg _) (by assumption)
                | norm_num

/-- C6 witness: the cost theorem instantiated at the unknown model
`unknown-model-x` (absent from all three tables). -/
theorem cost_calculator_behaviour_witness :
    calculate_cost ⟨1000, 1000, 2000⟩ "gpt-4" = 90
  ∧ calculate_cost ⟨1000, 1000, 2000⟩ "unknown-model-x" = 0
  ∧ calculate_perplexity_cost "unknown-model-x" 1000 1000 ≠ 0
  ∧ calculate_searchgpt_cost "unknown-model-x" 1000 1000 ≠ 0 := by
  have h := cost_calculator_behaviour ⟨1000, 1000, 2000⟩
    "unknown-model-x" "unknown-model-x" "unknown-model-x" rfl rfl rfl
  exact ⟨h.1, h.2.1, h.2.2.1, h.2.2.2.1⟩

/-- C9: whenever the Gemini vendor response omits usage metadata, the
adapter estimates `input_tokens` as the character length of
`system_prompt + human_prompt` divided by 4 (truncating), and
`output_tokens` as the character length of the response text divided by 4
(truncating); the success dictionary carries exactly these estimates. -/
theorem gemini_token_estimation (sys hum m : String) (mt : Nat) (temp : ℚ)
    (r : Nat) (v : Nat → VendorOutcome) (j : Nat → ℚ) (t : String)
    (hv : v 0 = .success t none) :
    (call_gemini_with_prompts sys hum m mt temp r v j).result =
      some { content := some t
             usage := ⟨(sys ++ hum).length / 4, t.length / 4,
                       (sys ++ hum).length / 4 + t.length / 4⟩
             model := m
             provider := some "gemini"
             cost := none
             error := none
             search_results := none
             search_enhanced := none } := by
  unfold call_gemini_with_prompts
  rw [geminiLoop_success sys hum m r v j r 0 t none hv]
  simp [geminiSuccessResult]

/-- C9 witness: an 8-character system prompt plus a 3-character human prompt
estimate to `11 / 4 = 2` input tokens, and a 10-character response text to
`10 / 4 = 2` output tokens. -/
theorem gemini_token_estimation_witness :
    (call_gemini_with_prompts "abcdefgh" "ijk" "gemini-1.5-flash" 64 1 3
        (fun _ => .success "0123456789" none) (fun _ => 0)).result =
      some { content := some "0123456789"
             usage := ⟨2, 2, 4⟩
             model := "gemini-1.5-flash"
             provider := some "gemini"
             cost := none
             error := none
             search_results := none
             search_enhanced := none } := by
  rw [gemini_token_estimation "abcdefgh" "ijk" "gemini-1.5-flash" 64 1 3
    (fun _ => .success "0123456789" none) (fun _ => 0) "0123456789" rfl]
  decide

/-- C10: the Claude adapter classifies an error as retryable exactly when
its stringified form contains the substring `529` or, case-insensitively
(via lowering), `overloaded`: any error containing neither — including the
rate-limit indicators `429` / `rate_limit` that the other adapters retry —
terminates after exactly one attempt with the error-bearing dictionary,
while a persistent error containing one of them is retried to exhaustion
(`max_retries + 1` attempts). -/
theorem claude_retryability_classification (sys hum m e : String)
    (mt r : Nat) (j : Nat → ℚ) :
    ((strHasSub e "529" = false ∧ strHasSub (strLower e) "overloaded" = false) →
        (call_claude_with_prompts sys hum m mt r (fun _ => .failure e) j).attempts = 1
      ∧ (call_claude_with_prompts sys hum m mt r (fun _ => .failure e) j).result =
          some (claudeErrorResult m e))
  ∧ ((strHasSub e "529" = true ∨ strHasSub (strLower e) "overloaded" = true) →
        (call_claude_with_prompts sys hum m mt r (fun _ => .failure e) j).attempts = r + 1) := by
  constructor
  · rintro ⟨h1, h2⟩
    have he : isClaudeRetryable e = false := by
      simp [isClaudeRetryable, h1, h2]
    unfold call_claude_with_prompts
    rw [claudeLoop_fatal m e r (fun _ => .failure e) j r 0 rfl he]
    exact ⟨rfl, rfl⟩
  · intro h
    have he : isClaudeRetryable e = true := by
      rcases h with h | h <;> simp [isClaudeRetryable, h]
    unfold call_claude_with_prompts
    rw [claudeLoop_persistent m e r j he r 0]

/-- C10 witness: the rate-limit error string `429 rate_limit exceeded`
(retried by the other adapters) makes Claude give up after exactly one
attempt, while a persistent `Overloaded` error (matched case-insensitively)
with `max_retries = 2` is attempted 3 times. -/
theorem claude_retryability_classification_witness :
    (call_claude_with_prompts "s" "h" "m" 64 3
        (fun _ => .failure "429 rate_limit exceeded") (fun _ => 0)).attempts = 1
  ∧ (call_claude_with_prompts "s" "h" "m" 64 2
        (fun _ => .failure "Overloaded") (fun _ => 0)).attempts = 2 + 1 := by
  constructor
  · exact ((claude_retryability_classification "s" "h" "m"
      "429 rate_limit exceeded" 64 3 (fun _ => 0)).1 ⟨by decide, by decide⟩).1
  · exact (claude_retryability_classification "s" "h" "m"
      "Overloaded" 64 2 (fun _ => 0)).2 (Or.inr (by decide))

/-- C5: the multi-call aggregation of `compare_providers` returns the single
underlying call's result unmodified for `n = 1`; for `n > 1` it makes `n`
sequential calls with identical parameters, sums usage componentwise across
all `n` results (successes and failures alike, since failures carry zero
usage dictionaries that are summed the same way), and produces content equal
to the `"[n calls made]"` prefix followed by the `n` contents joined in call
order by the fixed separator, preserving the ordered list of individual
results; for `n = 3` the content consists of the prefix and the three
contents with exactly two interposed separators, and on separator-free
contents the separator occurs exactly twice. -/
theorem multi_call_aggregation (call : Nat → CallResult) (m : String)
    (n : Nat) (hn : 1 < n) :
    aggregate_provider call m 1 = .single (call 0)
  ∧ aggregate_provider call m n = .aggregated
      { content := "[" ++ toString n ++ " calls made]\n" ++
          String.intercalate callSeparator
            (((List.range n).map call).map fun r => r.content.getD "")
        model := m
        usage := ⟨(((List.range n).map call).map fun r => r.usage.input_tokens).sum,
                  (((List.range n).map call).map fun r => r.usage.output_tokens).sum,
                  (((List.range n).map call).map fun r => r.usage.total_tokens).sum⟩
        individual_responses := (List.range n).map call }
  ∧ aggregate_provider call m 3 = .aggregated
      { content := "[3 calls made]\n" ++ (call 0).content.getD "" ++ callSeparator ++
          (call 1).content.getD "" ++ callSeparator ++ (call 2).content.getD ""
        model := m
        usage := ⟨(call 0).usage.input_tokens + (call 1).usage.input_tokens +
                    (call 2).usage.input_tokens,
                  (call 0).usage.output_tokens + (call 1).usage.output_tokens +
                    (call 2).usage.output_tokens,
                  (call 0).usage.total_tokens + (call 1).usage.total_tokens +
                    (call 2).usage.total_tokens⟩
        individual_responses := [call 0, call 1, call 2] }
  ∧ aggregate_provider
        (fun i => claudeSuccessResult "mm"
          (if i = 0 then "alpha" else if i = 1 then "beta" else "gamma") none)
        "mm" 3 =
      .aggregated
        { content := "[3 calls made]\nalpha\n\n---\n\nbeta\n\n---\n\ngamma"
          model := "mm"
          usage := ⟨0, 0, 0⟩
          individual_responses :=
            [claudeSuccessResult "mm" "alpha" none, claudeSuccessResult "mm" "beta" none,
             claudeSuccessResult "mm" "gamma" none] }
  ∧ strCountSub "[3 calls made]\nalpha\n\n---\n\nbeta\n\n---\n\ngamma" callSeparator = 2 := by
  refine ⟨?_, ?_, ?_, ?_, ?_⟩
  · simp [aggregate_provider]
  · have hne : n ≠ 1 := by omega
    simp [aggregate_provider, hne, foldl_addUsage, zeroUsage]
  · have h3 : List.range 3 = [0, 1, 2] := rfl
    simp [aggregate_provider, h3, addUsage, zeroUsage,
      String.intercalate, String.intercalate.go, String.append_assoc]
    rfl
  · decide
  · decide

/-- C5 witness: the aggregation theorem applied to a two-call run of a stub
adapter, with the aggregated dictionary evaluated. -/
theorem multi_call_aggregation_witness :
    aggregate_provider (fun i => claudeSuccessResult "mm" (toString i) none) "mm" 2 =
      .aggregated
        { content := "[2 calls made]\n0\n\n---\n\n1"
          model := "mm"
          usage := ⟨0, 0, 0⟩
          individual_responses :=
            [claudeSuccessResult "mm" "0" none, claudeSuccessResult "mm" "1" none] } := by
  rw [(multi_call_aggregation (fun i => claudeSuccessResult "mm" (toString i) none)
    "mm" 2 (by decide)).2.1]
  decide

/-- C7: `compare_providers` always attempts claude, openai and gemini in
that fixed order, contributing one entry per provider regardless of
individual failures (the entry list is structurally always the three keyed
entries), and whenever the per-provider call oracles label their results
with the requested model — which every adapter in this codebase does on all
paths — each entry's model field equals the tier's configured model for that
provider. -/
theorem compare_providers_structure (tier : TierConfig)
    (cc oc gc : String → Nat → CallResult) (n : Nat)
    (hc : ∀ mdl i, (cc mdl i).model = mdl)
    (ho : ∀ mdl i, (oc mdl i).model = mdl)
    (hg : ∀ mdl i, (gc mdl i).model = mdl) :
    (compare_providers tier cc oc gc n).map Prod.fst = ["claude", "openai", "gemini"]
  ∧ (compare_providers tier cc oc gc n).map (fun pe => pe.2.modelOf) =
      [tier.claude, tier.openai, tier.gemini] := by
  have key : ∀ (call : Nat → CallResult) (mdl : String),
      (call 0).model = mdl → (aggregate_provider call mdl n).modelOf = mdl := by
    intro call mdl hm
    by_cases hn : n = 1 <;> simp [aggregate_provider, hn, ProviderEntry.modelOf, hm]
  refine ⟨rfl, ?_⟩
  simp [compare_providers, key _ _ (hc tier.claude 0), key _ _ (ho tier.openai 0),
    key _ _ (hg tier.gemini 0)]

/-- C7 witness: the comparison structure theorem at the economy tier with
single calls against stub adapters that label results with the requested
model, giving exactly the three provider keys and the economy models. -/
theorem compare_providers_structure_witness :
    (compare_providers
        { description := "Economy tier - cheapest models for cost-effective processing"
          claude := "claude-3-5-haiku-20241022"
          openai := "gpt-4o-mini"
          gemini := "gemini-1.5-flash"
          synthesis := "claude-3-5-haiku-20241022" }
        (fun mdl _ => claudeSuccessResult mdl "a" none)
        (fun mdl _ => openaiSuccessResult mdl "b" none)
        (fun mdl _ => geminiSuccessResult "s" "h" mdl "c" (some (1, 2))) 1).map Prod.fst =
      ["claude", "openai", "gemini"]
  ∧ (compare_providers
        { description := "Economy tier - cheapest models for cost-effective processing"
          claude := "claude-3-5-haiku-20241022"
          openai := "gpt-4o-mini"
          gemini := "gemini-1.5-flash"
          synthesis := "claude-3-5-haiku-20241022" }
        (fun mdl _ => claudeSuccessResult mdl "a" none)
        (fun mdl _ => openaiSuccessResult mdl "b" none)
        (fun mdl _ => geminiSuccessResult "s" "h" mdl "c" (some (1, 2))) 1).map
          (fun pe => pe.2.modelOf) =
      ["claude-3-5-haiku-20241022", "gpt-4o-mini", "gemini-1.5-flash"] := by
  have h := compare_providers_structure
    { description := "Economy tier - cheapest models for cost-effective processing"
      claude := "claude-3-5-haiku-20241022"
      openai := "gpt-4o-mini"
      gemini := "gemini-1.5-flash"
      synthesis := "claude-3-5-haiku-20241022" }
    (fun mdl _ => claudeSuccessResult mdl "a" none)
    (fun mdl _ => openaiSuccessResult mdl "b" none)
    (fun mdl _ => geminiSuccessResult "s" "h" mdl "c" (some (1, 2))) 1
    (fun _ _ => rfl) (fun _ _ => rfl) (fun _ _ => rfl)
  exact ⟨h.1, h.2⟩

/-- C1 counterexample: the Perplexity adapter loops `for attempt in
range(max_retries)` rather than `range(max_retries + 1)`, so with
`max_retries = 3` a persistent retryable error (a timeout) is attempted
exactly 3 times, not the claimed 4. -/
theorem perplexity_retry_count_counterexample :
    (call_perplexity_with_prompts true "sys" "hum" "model-x" 128 1 3
        (fun _ => .timeout)).attempts = 3
  ∧ (call_perplexity_with_prompts true "sys" "hum" "model-x" 128 1 3
        (fun _ => .timeout)).attempts ≠ 4 := by
  exact ⟨rfl, by decide⟩

/-- C1 (amended): given `max_retries = r`, a persistently retryable error
causes exactly `r + 1` attempts for the claude, openai and gemini adapters,
but exactly `r` attempts for the perplexity and searchgpt adapters (whose
loops run `range(max_retries)`); a fatal (non-retryable) error causes
exactly 1 attempt with no retry in every adapter (for perplexity/searchgpt
provided `r ≥ 1`, since with `r = 0` their loop body never runs). -/
theorem retry_attempt_counts
    (r : Nat) (hr : 1 ≤ r) (sys hum m : String) (mt : Nat) (temp : ℚ)
    (j : Nat → ℚ) (ec eo eg fc fo fg : String)
    (hec : isClaudeRetryable ec = true) (heo : isOpenaiRetryable eo = true)
    (heg : isGeminiRetryable eg = true)
    (hfc : isClaudeRetryable fc = false) (hfo : isOpenaiRetryable fo = false)
    (hfg : isGeminiRetryable fg = false)
    (ra : Option Nat) (body pmsg smsg : String) (ps : Nat) (hps : 500 ≤ ps)
    (sst : Nat) (se : Bool) (srs : List SearchResult) :
    (call_claude_with_prompts sys hum m mt r (fun _ => .failure ec) j).attempts = r + 1
  ∧ (call_openai_with_prompts sys hum m mt temp r (fun _ => .failure eo) j).attempts = r + 1
  ∧ (call_gemini_with_prompts sys hum m mt temp r (fun _ => .failure eg) j).attempts = r + 1
  ∧ (call_claude_with_prompts sys hum m mt r (fun _ => .failure fc) j).attempts = 1
  ∧ (call_openai_with_prompts sys hum m mt temp r (fun _ => .failure fo) j).attempts = 1
  ∧ (call_gemini_with_prompts sys hum m mt temp r (fun _ => .failure fg) j).attempts = 1
  ∧ (call_perplexity_with_prompts true sys hum m mt temp r
      (fun _ => .timeout)).attempts = r
  ∧ (call_perplexity_with_prompts true sys hum m mt temp r
      (fun _ => .httpError 429 ra body)).attempts = r
  ∧ (call_perplexity_with_prompts true sys hum m mt temp r
      (fun _ => .httpError ps ra body)).attempts = r
  ∧ (call_perplexity_with_prompts true sys hum m mt temp r
      (fun _ => .exc pmsg)).attempts = 1
  ∧ (call_searchgpt_with_prompts true true sys hum m mt temp r se srs
      (fun _ => .rateLimit)).1.attempts = r
  ∧ (call_searchgpt_with_prompts true true sys hum m mt temp r se srs
      (fun _ => .apiError sst smsg)).1.attempts = r
  ∧ (call_searchgpt_with_prompts true true sys hum m mt temp r se srs
      (fun _ => .exc smsg)).1.attempts = 1 := by
  refine ⟨?_, ?_, ?_, ?_, ?_, ?_, ?_, ?_, ?_, ?_, ?_, ?_, ?_⟩
  · unfold call_claude_with_prompts
    rw [claudeLoop_persistent m ec r j hec r 0]
  · unfold call_openai_with_prompts
    rw [openaiLoop_persistent m eo r j heo r 0]
  · unfold call_gemini_with_prompts
    rw [geminiLoop_persistent sys hum m eg r j heg r 0]
  · unfold call_claude_with_prompts
    rw [claudeLoop_fatal m fc r (fun _ => .failure fc) j r 0 rfl hfc]
  · unfold call_openai_with_prompts
    rw [openaiLoop_fatal m fo r (fun _ => .failure fo) j r 0 rfl hfo]
  · unfold call_gemini_with_prompts
    rw [geminiLoop_fatal sys hum m fg r (fun _ => .failure fg) j r 0 rfl hfg]
  · simp only [call_perplexity_with_prompts, if_pos trivial]
    rw [perplexityLoop_timeout_persistent m r r 0]
  · simp only [call_perplexity_with_prompts, if_pos trivial]
    rw [perplexityLoop_429_persistent m r ra body r 0]
  · have hne : ps ≠ 429 := by omega
    simp only [call_perplexity_with_prompts, if_pos trivial]
    rw [perplexityLoop_5xx_persistent m r ps ra body hne hps r 0]
  · cases r with
    | zero => exact absurd hr (by omega)
    | succ r2 =>
        simp only [call_perplexity_with_prompts, if_pos trivial]
        rw [perplexityLoop_exc m (r2 + 1) (fun _ => .exc pmsg) r2 0 pmsg rfl]
  · simp only [call_searchgpt_with_prompts]
    rw [searchgptLoop_rateLimit_persistent m r (if se = true then srs else []) se r 0]
    simp
  · simp only [call_searchgpt_with_prompts]
    rw [searchgptLoop_apiError_persistent m r (if se = true then srs else []) se sst smsg r 0]
    simp
  · cases r with
    | zero => exact absurd hr (by omega)
    | succ r2 =>
        simp only [call_searchgpt_with_prompts]
        rw [searchgptLoop_exc m (r2 + 1) (if se = true then srs else []) se
          (fun _ => .exc smsg) r2 0 smsg rfl]
        simp

/-- C1 witness: the amended retry-count theorem at `max_retries = 3` with a
persistent `overloaded` error for claude (4 attempts), a fatal
`bad request` error for claude (1 attempt), a persistent timeout for
perplexity (3 attempts), a fatal exception for perplexity (1 attempt), and
the analogous searchgpt cases. -/
theorem retry_attempt_counts_witness :
    (call_claude_with_prompts "s" "h" "m" 64 3
        (fun _ => .failure "overloaded") (fun _ => 0)).attempts = 3 + 1
  ∧ (call_claude_with_prompts "s" "h" "m" 64 3
        (fun _ => .failure "bad request") (fun _ => 0)).attempts = 1
  ∧ (call_perplexity_with_prompts true "s" "h" "m" 64 1 3
        (fun _ => .timeout)).attempts = 3
  ∧ (call_perplexity_with_prompts true "s" "h" "m" 64 1 3
        (fun _ => .exc "boom")).attempts = 1
  ∧ (call_searchgpt_with_prompts true true "s" "h" "m" 64 1 3 true []
        (fun _ => .rateLimit)).1.attempts = 3
  ∧ (call_searchgpt_with_prompts true true "s" "h" "m" 64 1 3 true []
        (fun _ => .exc "kaboom")).1.attempts = 1 := by
  obtain ⟨a1, a2, a3, a4, a5, a6, a7, a8, a9, a10, a11, a12, a13⟩ :=
    retry_attempt_counts 3 (by decide) "s" "h" "m" 64 1 (fun _ => 0)
      "overloaded" "429" "quota" "bad request" "invalid model" "authentication"
      (by decide) (by decide) (by decide) (by decide) (by decide) (by decide)
      none "b" "boom" "kaboom" 503 (by decide) 400 true []
  exact ⟨a1, a4, a7, a10, a11, a13⟩

/-- C8 counterexample: on a 429 response carrying no Retry-After header the
Perplexity adapter sleeps a flat 60 seconds before the retry; at the
zero-based attempt index 0 the claimed wait `2 ^ 0 + uniform[0,1)` would lie
in `[1, 2)`, which excludes 60, and no explicit Retry-After header was
present to justify the substitution. -/
theorem perplexity_rate_limit_sleep_counterexample :
    (call_perplexity_with_prompts true "s" "h" "m" 64 1 2
        (fun _ => .httpError 429 none "body")).sleeps = [(60 : ℚ)]
  ∧ ¬ ∃ jt : ℚ, 0 ≤ jt ∧ jt < 1 ∧ (60 : ℚ) = 2 ^ (0 : Nat) + jt := by
  constructor
  · rfl
  · rintro ⟨jt, h0, h1, he⟩
    norm_num at he
    linarith

/-- C8 (amended): the claude, openai and gemini adapters wait
`2 ^ attempt + jitter attempt` before every retry (zero-based attempt
index); the perplexity adapter instead waits the Retry-After header value
(defaulting to 60 when the header is absent) for 429 responses and a
jitter-free `2 ^ attempt` for 5xx responses and timeouts; the searchgpt
adapter waits a flat 60 seconds for rate limits (ignoring any Retry-After
information) and a jitter-free `2 ^ attempt` for API errors. -/
theorem backoff_schedules
    (r : Nat) (sys hum m : String) (mt : Nat) (temp : ℚ) (j : Nat → ℚ)
    (ec eo eg : String)
    (hec : isClaudeRetryable ec = true) (heo : isOpenaiRetryable eo = true)
    (heg : isGeminiRetryable eg = true)
    (ra : Option Nat) (body smsg : String) (ps : Nat) (hps : 500 ≤ ps)
    (sst : Nat) (se : Bool) (srs : List SearchResult) :
    (call_claude_with_prompts sys hum m mt r (fun _ => .failure ec) j).sleeps =
      backoffFrom j 0 r
  ∧ (call_openai_with_prompts sys hum m mt temp r (fun _ => .failure eo) j).sleeps =
      backoffFrom j 0 r
  ∧ (call_gemini_with_prompts sys hum m mt temp r (fun _ => .failure eg) j).sleeps =
      backoffFrom j 0 r
  ∧ (call_perplexity_with_prompts true sys hum m mt temp r
      (fun _ => .httpError 429 ra body)).sleeps =
        List.replicate (r - 1) ((ra.getD 60 : Nat) : ℚ)
  ∧ (call_perplexity_with_prompts true sys hum m mt temp r
      (fun _ => .httpError ps ra body)).sleeps = powersFrom 0 (r - 1)
  ∧ (call_perplexity_with_prompts true sys hum m mt temp r
      (fun _ => .timeout)).sleeps = powersFrom 0 (r - 1)
  ∧ (call_searchgpt_with_prompts true true sys hum m mt temp r se srs
      (fun _ => .rateLimit)).1.sleeps = List.replicate (r - 1) (60 : ℚ)
  ∧ (call_searchgpt_with_prompts true true sys hum m mt temp r se srs
      (fun _ => .apiError sst smsg)).1.sleeps = powersFrom 0 (r - 1) := by
  refine ⟨?_, ?_, ?_, ?_, ?_, ?_, ?_, ?_⟩
  · unfold call_claude_with_prompts
    rw [claudeLoop_persistent m ec r j hec r 0]
  · unfold call_openai_with_prompts
    rw [openaiLoop_persistent m eo r j heo r 0]
  · unfold call_gemini_with_prompts
    rw [geminiLoop_persistent sys hum m eg r j heg r 0]
  · simp only [call_perplexity_with_prompts, if_pos trivial]
    rw [perplexityLoop_429_persistent m r ra body r 0]
  · have hne : ps ≠ 429 := by omega
    simp only [call_perplexity_with_prompts, if_pos trivial]
    rw [perplexityLoop_5xx_persistent m r ps ra body hne hps r 0]
  · simp only [call_perplexity_with_prompts, if_pos trivial]
    rw [perplexityLoop_timeout_persistent m r r 0]
  · simp only [call_searchgpt_with_prompts]
    rw [searchgptLoop_rateLimit_persistent m r (if se = true then srs else []) se r 0]
    simp
  · simp only [call_searchgpt_with_prompts]
    rw [searchgptLoop_apiError_persistent m r (if se = true then srs else []) se sst smsg r 0]
    simp

/-- C8 witness: the backoff schedule theorem at `max_retries = 3` and
constant jitter 1/2: the claude waits are `[1.5, 2.5, 4.5]`, the perplexity
timeout waits are the jitter-free `[1, 2]`, and the searchgpt rate-limit
waits are `[60, 60]`. -/
theorem backoff_schedules_witness :
    (call_claude_with_prompts "s" "h" "m" 64 3
        (fun _ => .failure "overloaded") (fun _ => 1 / 2)).sleeps =
      [3 / 2, 5 / 2, 9 / 2]
  ∧ (call_perplexity_with_prompts true "s" "h" "m" 64 1 3
        (fun _ => .timeout)).sleeps = [1, 2]
  ∧ (call_searchgpt_with_prompts true true "s" "h" "m" 64 1 3 true []
        (fun _ => .rateLimit)).1.sleeps = [60, 60] := by
  obtain ⟨b1, b2, b3, b4, b5, b6, b7, b8⟩ :=
    backoff_schedules 3 "s" "h" "m" 64 1 (fun _ => 1 / 2)
      "overloaded" "429" "quota" (by decide) (by decide) (by decide)
      none "b" "x" 503 (by decide) 400 true []
  refine ⟨?_, ?_, ?_⟩
  · rw [b1]
    norm_num [backoffFrom]
  · rw [b6]
    norm_num [powersFrom]
  · rw [b7]
    rfl

/-- C2: with `max_retries = 0` the Perplexity and SearchGPT adapters fall
off the end of their `for attempt in range(max_retries)` loop and return
Python `None` instead of the well-formed result dictionary promised by
their docstrings and `-> Dict[str, Any]` annotations — even when, as in the
searchgpt case below, the vendor call would have succeeded. -/
theorem zero_retries_returns_none :
    (call_perplexity_with_prompts true "sys" "hum" "m" 64 1 0
        (fun _ => .timeout)).result = none
  ∧ (call_searchgpt_with_prompts true true "sys" "q" "m" 64 1 0 true []
        (fun _ => .ok "ans" 1 2 3)).1.result = none := by
  exact ⟨rfl, rfl⟩

/-- C3 counterexample: with `search_enabled = True`, a configured OpenAI key
but a missing SERPER key — that is, the search backend misconfigured — the
SearchGPT adapter returns the pre-flight key error without making any model
attempt, even though the model call would have succeeded: it fails solely
because search is misconfigured, and the result is not the claimed
successful result with `search_enhanced = False`. -/
theorem searchgpt_missing_serper_key_counterexample :
    (call_searchgpt_with_prompts true false "sys" "q" "m" 64 1 3 true []
        (fun _ => .ok "ans" 1 2 3)).1.result =
      some { content := none
             usage := zeroUsage
             model := "m"
             provider := none
             cost := some 0
             error := some "SearchGPT API keys not configured"
             search_results := some []
             search_enhanced := none }
  ∧ (call_searchgpt_with_prompts true false "sys" "q" "m" 64 1 3 true []
        (fun _ => .ok "ans" 1 2 3)).1.attempts = 0 := by
  exact ⟨rfl, rfl⟩

/-- C3 (amended): provided both API keys are configured (the pre-flight
check otherwise fails the whole call even when only the search key is
missing) and `max_retries ≥ 1`, a SearchGPT call with `search_enabled =
True` and a search backend returning zero results proceeds with the
original, unmodified user prompt, and when the model call succeeds it
returns a successful result with `search_enhanced = False` and
`search_results = []`. -/
theorem searchgpt_zero_results_degrades (sys q m : String) (mt : Nat)
    (temp : ℚ) (r : Nat) (hr : 1 ≤ r) (v : Nat → SearchGptOutcome)
    (c : String) (p o t : Nat) (hv : v 0 = .ok c p o t) :
    (call_searchgpt_with_prompts true true sys q m mt temp r true [] v).2 = q
  ∧ (call_searchgpt_with_prompts true true sys q m mt temp r true [] v).1.result =
      some (searchgptSuccessResult m c p o t [] true)
  ∧ (searchgptSuccessResult m c p o t [] true).error = none
  ∧ (searchgptSuccessResult m c p o t [] true).search_enhanced = some false
  ∧ (searchgptSuccessResult m c p o t [] true).search_results = some [] := by
  refine ⟨?_, ?_, rfl, rfl, rfl⟩
  · simp [call_searchgpt_with_prompts, enhancedPrompt]
  · cases r with
    | zero => exact absurd hr (by omega)
    | succ r2 =>
        have hred : call_searchgpt_with_prompts true true sys q m mt temp (r2 + 1)
            true [] v =
            (searchgptLoop m (r2 + 1) [] true v (r2 + 1) 0, enhancedPrompt q true []) := by
          simp [call_searchgpt_with_prompts]
        rw [hred, searchgptLoop_ok m (r2 + 1) [] true v r2 0 c p o t hv]

/-- C3 witness: the degradation theorem with one retry allowed and a model
call succeeding with 7 input and 5 output tokens on the original prompt. -/
theorem searchgpt_zero_results_degrades_witness :
    (call_searchgpt_with_prompts true true "s" "original question" "gpt-4o-mini"
        64 1 1 true [] (fun _ => .ok "ans" 7 5 12)).2 = "original question"
  ∧ (call_searchgpt_with_prompts true true "s" "original question" "gpt-4o-mini"
        64 1 1 true [] (fun _ => .ok "ans" 7 5 12)).1.result =
      some (searchgptSuccessResult "gpt-4o-mini" "ans" 7 5 12 [] true)
  ∧ (searchgptSuccessResult "gpt-4o-mini" "ans" 7 5 12 [] true).error = none
  ∧ (searchgptSuccessResult "gpt-4o-mini" "ans" 7 5 12 [] true).search_enhanced =
      some false
  ∧ (searchgptSuccessResult "gpt-4o-mini" "ans" 7 5 12 [] true).search_results =
      some [] := by
  exact searchgpt_zero_results_degrades "s" "original question" "gpt-4o-mini"
    64 1 1 (by decide) (fun _ => .ok "ans" 7 5 12) "ans" 7 5 12 rfl

/-- C4 counterexample: the Perplexity adapter passes the vendor-reported
`total_tokens` through unchecked (`usage.get('total_tokens', input +
output)`), so a 200 response reporting 1 input, 2 output and 99 total
tokens populates a usage dictionary with `total_tokens = 99 ≠ 1 + 2`. -/
theorem perplexity_total_tokens_counterexample :
    ((call_perplexity_with_prompts true "sys" "hum" "m" 64 1 3
        (fun _ => .ok "ans" 1 2 (some 99))).result.map fun cr => cr.usage) =
      some ⟨1, 2, 99⟩
  ∧ (99 : Nat) ≠ 1 + 2 := by
  exact ⟨rfl, by decide⟩

/-- C4 (amended): the claude, openai and gemini adapters satisfy
`total_tokens = input_tokens + output_tokens` on every path (their error
paths carry the all-zero usage, shown by the all-failure conjuncts); the
perplexity and searchgpt adapters satisfy the invariant whenever the vendor
reports a consistent total or (perplexity) omits it, since they pass the
vendor's `total_tokens` through, and their error-bearing results always
carry exactly the all-zero usage. -/
theorem token_usage_invariants
    (sys hum m : String) (mt : Nat) (temp : ℚ) (r : Nat) (j : Nat → ℚ)
    (vc vo vg : Nat → VendorOutcome) (vp : Nat → PerplexityOutcome)
    (vs : Nat → SearchGptOutcome) (se : Bool) (srs : List SearchResult)
    (cr : CallResult) :
    ((call_claude_with_prompts sys hum m mt r vc j).result = some cr →
        cr.usage.total_tokens = cr.usage.input_tokens + cr.usage.output_tokens)
  ∧ ((call_openai_with_prompts sys hum m mt temp r vo j).result = some cr →
        cr.usage.total_tokens = cr.usage.input_tokens + cr.usage.output_tokens)
  ∧ ((call_gemini_with_prompts sys hum m mt temp r vg j).result = some cr →
        cr.usage.total_tokens = cr.usage.input_tokens + cr.usage.output_tokens)
  ∧ ((∀ i, (vc i).isFailure = true) →
      (call_claude_with_prompts sys hum m mt r vc j).result = some cr →
        cr.usage = zeroUsage)
  ∧ ((∀ i, (vo i).isFailure = true) →
      (call_openai_with_prompts sys hum m mt temp r vo j).result = some cr →
        cr.usage = zeroUsage)
  ∧ ((∀ i, (vg i).isFailure = true) →
      (call_gemini_with_prompts sys hum m mt temp r vg j).result = some cr →
        cr.usage = zeroUsage)
  ∧ ((∀ i c2 p q t, vp i = .ok c2 p q t → t = none ∨ t = some (p + q)) →
      (call_perplexity_with_prompts true sys hum m mt temp r vp).result = some cr →
        cr.usage.total_tokens = cr.usage.input_tokens + cr.usage.output_tokens)
  ∧ ((call_perplexity_with_prompts true sys hum m mt temp r vp).result = some cr →
      cr.error ≠ none → cr.usage = zeroUsage)
  ∧ ((∀ i c2 p q t, vs i = .ok c2 p q t → t = p + q) →
      (call_searchgpt_with_prompts true true sys hum m mt temp r se srs vs).1.result =
        some cr →
        cr.usage.total_tokens = cr.usage.input_tokens + cr.usage.output_tokens)
  ∧ ((call_searchgpt_with_prompts true true sys hum m mt temp r se srs vs).1.result =
        some cr →
      cr.error ≠ none → cr.usage = zeroUsage) := by
  refine ⟨?_, ?_, ?_, ?_, ?_, ?_, ?_, ?_, ?_, ?_⟩
  · exact claudeLoop_usage_inv m r vc j r 0 cr
  · exact openaiLoop_usage_inv m r vo j r 0 cr
  · exact geminiLoop_usage_inv sys hum m r vg j r 0 cr
  · exact fun hv => claudeLoop_allfail_zero m r vc j hv r 0 cr
  · exact fun hv => openaiLoop_allfail_zero m r vo j hv r 0 cr
  · exact fun hv => geminiLoop_allfail_zero sys hum m r vg j hv r 0 cr
  · intro hv
    simp only [call_perplexity_with_prompts, if_pos trivial]
    exact perplexityLoop_usage_inv m r vp hv r 0 cr
  · simp only [call_perplexity_with_prompts, if_pos trivial]
    exact perplexityLoop_error_zero m r vp r 0 cr
  · intro hv
    simp only [call_searchgpt_with_prompts]
    exact searchgptLoop_usage_inv m r (if se = true then srs else []) se vs hv r 0 cr
  · simp only [call_searchgpt_with_prompts]
    exact searchgptLoop_error_zero m r (if se = true then srs else []) se vs r 0 cr

/-- C4 witness: the usage invariant theorem applied to a successful claude
call with 3 input and 4 output tokens, and to a perplexity run ending in an
error-bearing result (an unexpected exception), whose usage is all-zero. -/
theorem token_usage_invariants_witness :
    (claudeSuccessResult "m" "ok" (some (3, 4))).usage.total_tokens =
      (claudeSuccessResult "m" "ok" (some (3, 4))).usage.input_tokens +
        (claudeSuccessResult "m" "ok" (some (3, 4))).usage.output_tokens
  ∧ (perplexityErrorResult "m" "Unexpected error: boom").usage = zeroUsage := by
  constructor
  · exact (token_usage_invariants "s" "h" "m" 64 1 1 (fun _ => 0)
      (fun _ => .success "ok" (some (3, 4))) (fun _ => .failure "x")
      (fun _ => .failure "x") (fun _ => .exc "boom") (fun _ => .rateLimit) true []
      (claudeSuccessResult "m" "ok" (some (3, 4)))).1 rfl
  · exact (token_usage_invariants "s" "h" "m" 64 1 1 (fun _ => 0)
      (fun _ => .success "ok" (some (3, 4))) (fun _ => .failure "x")
      (fun _ => .failure "x") (fun _ => .exc "boom") (fun _ => .rateLimit) true []
      (perplexityErrorResult "m" "Unexpected error: boom")).2.2.2.2.2.2.2.1
      rfl (by decide)
